import Mathlib

/-!
Shallow embedding of the weather caching/freshness engine:
the TTL-keyed store (`WeatherCache` in instances/cache/weatherCache.ts),
the weather service (services/weather/weatherService.ts) and the HTTP
refresh controller (api/v1/external/weather/controller.ts).

Modelling conventions:
* Instants are milliseconds since epoch, as `Nat` (`Date.now()` is a
  non-negative integer in practice); where the source subtracts two
  instants and compares, the subtraction is taken in `ℤ` to mirror
  JavaScript number subtraction.
* JavaScript numbers carrying temperatures are modelled as `ℚ`;
  `toFixed(1)` followed by `parseFloat` is modelled by `toFixed1`,
  rounding to the nearest multiple of 1/10 with ties toward the larger
  value, as ECMAScript `Number.prototype.toFixed` specifies.
* The two `Map`s inside the cache singleton are modelled as functions
  `String → Option _`; mutation is explicit state passing.
* The upstream axios call, its timeout, the missing-API-key throw and the
  response-shape check are collapsed into an `UpstreamOutcome` parameter:
  `failure` covers every throw that happens before the temperature is
  read (network error, timeout, absent key, malformed payload), and
  `success temp_c name` carries `response.data.current.temp_c` and
  `response.data.location.name`.
* `new Date().getHours()/getMinutes()` format the server-local wall
  clock; the embedding renders the same instant in UTC (the claims never
  depend on the timezone offset).
-/

/-- Connection status of a snapshot (`WeatherStatus` in weatherTypes.ts). -/
inductive WeatherStatus where
  | online
  | offline
  | outdated
deriving DecidableEq, Repr

/-- Supported temperature units (`TemperatureUnit` in weatherTypes.ts). -/
inductive TemperatureUnit where
  | celsius
  | fahrenheit
deriving DecidableEq, Repr

/-- `WeatherData` from weatherTypes.ts. -/
structure WeatherData where
  temperature : ℚ
  unit : String
  location : String
  timestamp : String
  status : WeatherStatus
  fetchedAt : Nat
deriving DecidableEq, Repr

/-- `CacheEntry` from weatherCache.ts: one snapshot plus its absolute expiry instant. -/
structure CacheEntry where
  data : WeatherData
  expiresAt : Nat
deriving DecidableEq, Repr

/-- The mutable state of the `WeatherCache` singleton: the TTL map `cache`
and the per-location map `lastRefreshTimes`. -/
structure WeatherCacheState where
  cache : String → Option CacheEntry
  lastRefreshTimes : String → Option Nat

/-- `WeatherCache.get`: returns the entry's data if present and unexpired;
if `now > expiresAt` it deletes the entry (lazy expiry) and returns none.
Returns the possibly-updated state alongside the result. -/
def WeatherCache.get (now : Nat) (key : String) (s : WeatherCacheState) :
    Option WeatherData × WeatherCacheState :=
  match s.cache key with
  | none => (none, s)
  | some entry =>
    if now > entry.expiresAt then
      (none, { s with cache := fun k => if k = key then none else s.cache k })
    else
      (some entry.data, s)

/-- `WeatherCache.set`: stores `data` under `key` with a 15-minute TTL
(`expiresAt = now + 900000` ms), overwriting any prior entry. -/
def WeatherCache.set (now : Nat) (key : String) (data : WeatherData)
    (s : WeatherCacheState) : WeatherCacheState :=
  { s with cache := fun k => if k = key then some ⟨data, now + 900000⟩ else s.cache k }

/-- `WeatherCache.setLastRefreshTime`. -/
def WeatherCache.setLastRefreshTime (location : String) (timestamp : Nat)
    (s : WeatherCacheState) : WeatherCacheState :=
  { s with lastRefreshTimes :=
      fun k => if k = location then some timestamp else s.lastRefreshTimes k }

/-- `WeatherCache.getLastRefreshTime`: the source returns
`this.lastRefreshTimes.get(location) || null`, so a stored value of `0`
(falsy) is reported as absent. -/
def WeatherCache.getLastRefreshTime (location : String) (s : WeatherCacheState) :
    Option Nat :=
  match s.lastRefreshTimes location with
  | none => none
  | some t => if t = 0 then none else some t

/-- One execution of the body of the interval installed by
`WeatherCache.startCleanupInterval`: deletes every entry with
`now > expiresAt`. -/
def WeatherCache.cleanupSweep (now : Nat) (s : WeatherCacheState) : WeatherCacheState :=
  { s with cache := fun k =>
      match s.cache k with
      | none => none
      | some entry => if now > entry.expiresAt then none else some entry }

/-- `WeatherCache.clear`: empties both maps. -/
def WeatherCache.clear (_s : WeatherCacheState) : WeatherCacheState :=
  { cache := fun _ => none, lastRefreshTimes := fun _ => none }

/-- Outcome of the axios call to the upstream provider, together with the
response-shape validation and the API-key check that happen before the
temperature is read: `failure` is any throw on that prefix of the `try`
block (network error, 5s timeout, missing key, `!response.data` or
`!response.data.current`); `success` carries
`response.data.current.temp_c` and `response.data.location.name`. -/
inductive UpstreamOutcome where
  | failure
  | success (temp_c : ℚ) (name : String)
deriving DecidableEq, Repr

/-- The error object thrown at the end of the `catch` block
(`apiError.code = 'WEATHER_API_ERROR'`). -/
structure ApiError where
  code : String
deriving DecidableEq, Repr

/-- The string interpolated for a `TemperatureUnit` in a template literal. -/
def unitString : TemperatureUnit → String
  | TemperatureUnit.celsius => "celsius"
  | TemperatureUnit.fahrenheit => "fahrenheit"

/-- The cache key `` `${location}_${unit}` `` built in `getCurrentWeather`
and `fetchWeatherFromAPI`. -/
def mkCacheKey (location : String) (unit : TemperatureUnit) : String :=
  location ++ "_" ++ unitString unit

/-- `celsiusToFahrenheit` from weatherService.ts: `(celsius * 9) / 5 + 32`. -/
def celsiusToFahrenheit (celsius : ℚ) : ℚ :=
  celsius * 9 / 5 + 32

/-- `parseFloat(x.toFixed(1))`: round to the nearest multiple of 1/10,
ties to the larger value (ECMAScript `toFixed` picks the larger candidate
on a tie). -/
def toFixed1 (x : ℚ) : ℚ :=
  (⌊x * 10 + 1 / 2⌋ : ℚ) / 10

/-- Two-digit zero-padded rendering: `n.toString().padStart(2, '0')` for
hour/minute values. -/
def pad2 (n : Nat) : String :=
  if n < 10 then "0" ++ toString n else toString n

/-- The display timestamp `` `Updated at ${HH}:${MM}` `` built from the
current instant (rendered in UTC; the source uses the server-local
clock, an offset the claims never depend on). -/
def formatTimestamp (now : Nat) : String :=
  "Updated at " ++ pad2 (now / 3600000 % 24) ++ ":" ++ pad2 (now / 60000 % 60)

/-- The `catch` block of `fetchWeatherFromAPI`: look the key up through the
TTL-checking `WeatherCache.get`; on a hit return the cached data with
`status` forced to `offline`, otherwise throw an error with code
`WEATHER_API_ERROR`. -/
def offlineFallback (location : String) (unit : TemperatureUnit) (now : Nat)
    (s : WeatherCacheState) : Except ApiError WeatherData × WeatherCacheState :=
  let cacheKey := mkCacheKey location unit
  match WeatherCache.get now cacheKey s with
  | (some cachedData, s1) => (Except.ok { cachedData with status := WeatherStatus.offline }, s1)
  | (none, s1) => (Except.error { code := "WEATHER_API_ERROR" }, s1)

/-- `fetchWeatherFromAPI` from weatherService.ts. The upstream call and the
checks preceding the temperature read are the `outcome` parameter; the
several `Date.now()` / `new Date()` reads inside one invocation are the
single instant `now`. On success the converted, rounded snapshot is stored
under the `(location, unit)` key and the per-location last-refresh time is
recorded; any throw lands in `offlineFallback`. -/
def fetchWeatherFromAPI (location : String) (unit : TemperatureUnit)
    (outcome : UpstreamOutcome) (now : Nat) (s : WeatherCacheState) :
    Except ApiError WeatherData × WeatherCacheState :=
  match outcome with
  | UpstreamOutcome.failure => offlineFallback location unit now s
  | UpstreamOutcome.success temp_c name =>
    let temperature :=
      if unit = TemperatureUnit.fahrenheit then celsiusToFahrenheit temp_c else temp_c
    if temp_c < -90 ∨ temp_c > 60 then
      offlineFallback location unit now s
    else
      let timestamp := formatTimestamp now
      let weatherData : WeatherData :=
        { temperature := toFixed1 temperature
          unit := if unit = TemperatureUnit.celsius then "°C" else "°F"
          location := name
          timestamp := timestamp
          status := WeatherStatus.online
          fetchedAt := now }
      let cacheKey := mkCacheKey location unit
      let s1 := WeatherCache.set now cacheKey weatherData s
      let s2 := WeatherCache.setLastRefreshTime location now s1
      (Except.ok weatherData, s2)

/-- `getCurrentWeather` from weatherService.ts: on a cache hit return a copy
of the cached snapshot whose `status` is recomputed from its age
(`outdated` iff older than 3600000 ms); on a miss fall through to
`fetchWeatherFromAPI`. -/
def getCurrentWeather (location : String) (unit : TemperatureUnit)
    (outcome : UpstreamOutcome) (now : Nat) (s : WeatherCacheState) :
    Except ApiError WeatherData × WeatherCacheState :=
  let cacheKey := mkCacheKey location unit
  match WeatherCache.get now cacheKey s with
  | (some cachedData, s1) =>
    let cacheAge : ℤ := (now : ℤ) - (cachedData.fetchedAt : ℤ)
    let isOutdated := cacheAge > 3600000
    (Except.ok { cachedData with
        status := if isOutdated then WeatherStatus.outdated else WeatherStatus.online }, s1)
  | (none, s1) => fetchWeatherFromAPI location unit outcome now s1

/-- `refreshWeather` from weatherService.ts: a direct call to
`fetchWeatherFromAPI`. -/
def refreshWeather (location : String) (unit : TemperatureUnit)
    (outcome : UpstreamOutcome) (now : Nat) (s : WeatherCacheState) :
    Except ApiError WeatherData × WeatherCacheState :=
  fetchWeatherFromAPI location unit outcome now s

/-- `checkRefreshEligibility` from weatherService.ts: allowed when
`getLastRefreshTime` reports absent, or when at least 30000 ms have
passed (JavaScript number subtraction, modelled in `ℤ`). -/
def checkRefreshEligibility (location : String) (now : Nat)
    (s : WeatherCacheState) : Bool :=
  match WeatherCache.getLastRefreshTime location s with
  | none => true
  | some lastRefresh =>
    let timeSinceRefresh : ℤ := (now : ℤ) - (lastRefresh : ℤ)
    timeSinceRefresh ≥ 30000

/-- Result of the HTTP refresh controller, by response shape: success,
400 `VALIDATION_ERROR`, 429 `RATE_LIMIT_ERROR`, 502 `WEATHER_API_ERROR`. -/
inductive ControllerResponse where
  | ok (data : WeatherData)
  | validationError
  | rateLimitError
  | weatherApiError
deriving DecidableEq, Repr

/-- The zod body schema of the refresh endpoint: `location` is a string of
1–50 characters (`unit` parses into `TemperatureUnit`, defaulting to
celsius, and is already reflected in the typed argument). -/
def validLocation (location : String) : Prop :=
  1 ≤ location.length ∧ location.length ≤ 50

instance (location : String) : Decidable (validLocation location) :=
  instDecidableAnd

/-- `refreshWeather` from controller.ts: validate the body, evaluate the
rate-limit gate, answer 429 without fetching when it denies, otherwise
call the service `refreshWeather` and map its outcome to a response. -/
def controllerRefreshWeather (location : String) (unit : TemperatureUnit)
    (outcome : UpstreamOutcome) (now : Nat) (s : WeatherCacheState) :
    ControllerResponse × WeatherCacheState :=
  if ¬ validLocation location then
    (ControllerResponse.validationError, s)
  else
    let canRefresh := checkRefreshEligibility location now s
    if canRefresh = false then
      (ControllerResponse.rateLimitError, s)
    else
      match refreshWeather location unit outcome now s with
      | (Except.ok weatherData, s1) => (ControllerResponse.ok weatherData, s1)
      | (Except.error _, s1) => (ControllerResponse.weatherApiError, s1)

/-! ### Helper lemmas and sample values -/

/-- The snapshot built on the success path of `fetchWeatherFromAPI`
(factored out of the source's record literal for use in statements). -/
def freshSnapshot (unit : TemperatureUnit) (temp_c : ℚ) (name : String) (now : Nat) :
    WeatherData :=
  { temperature := toFixed1 (if unit = TemperatureUnit.fahrenheit
      then celsiusToFahrenheit temp_c else temp_c)
    unit := if unit = TemperatureUnit.celsius then "°C" else "°F"
    location := name
    timestamp := formatTimestamp now
    status := WeatherStatus.online
    fetchedAt := now }

/-- A fetch attempt fails at one of its steps: either the upstream call /
response-shape prefix threw, or the plausibility guard rejected the
Celsius value. -/
def fetchStepFails (outcome : UpstreamOutcome) : Prop :=
  outcome = UpstreamOutcome.failure
  ∨ ∃ temp_c name, outcome = UpstreamOutcome.success temp_c name
      ∧ (temp_c < -90 ∨ temp_c > 60)

lemma fetchWeatherFromAPI_success_eq (location : String) (unit : TemperatureUnit)
    (temp_c : ℚ) (name : String) (now : Nat) (s : WeatherCacheState)
    (h : ¬ (temp_c < -90 ∨ temp_c > 60)) :
    fetchWeatherFromAPI location unit (UpstreamOutcome.success temp_c name) now s
      = (Except.ok (freshSnapshot unit temp_c name now),
         WeatherCache.setLastRefreshTime location now
           (WeatherCache.set now (mkCacheKey location unit)
             (freshSnapshot unit temp_c name now) s)) := by
  simp [fetchWeatherFromAPI, h, freshSnapshot]

lemma fetchWeatherFromAPI_fails_eq (location : String) (unit : TemperatureUnit)
    (outcome : UpstreamOutcome) (now : Nat) (s : WeatherCacheState)
    (h : fetchStepFails outcome) :
    fetchWeatherFromAPI location unit outcome now s = offlineFallback location unit now s := by
  rcases h with h | ⟨temp_c, name, rfl, h⟩
  · rw [h]; rfl
  · simp [fetchWeatherFromAPI, h]

lemma offlineFallback_none (location : String) (unit : TemperatureUnit) (now : Nat)
    (s : WeatherCacheState) (h : s.cache (mkCacheKey location unit) = none) :
    offlineFallback location unit now s
      = (Except.error { code := "WEATHER_API_ERROR" }, s) := by
  simp [offlineFallback, WeatherCache.get, h]

lemma offlineFallback_hit (location : String) (unit : TemperatureUnit) (now : Nat)
    (s : WeatherCacheState) (entry : CacheEntry)
    (h : s.cache (mkCacheKey location unit) = some entry) (hlive : now ≤ entry.expiresAt) :
    offlineFallback location unit now s
      = (Except.ok { entry.data with status := WeatherStatus.offline }, s) := by
  simp [offlineFallback, WeatherCache.get, h, not_lt.mpr hlive]

lemma offlineFallback_expired (location : String) (unit : TemperatureUnit) (now : Nat)
    (s : WeatherCacheState) (entry : CacheEntry)
    (h : s.cache (mkCacheKey location unit) = some entry) (hexp : entry.expiresAt < now) :
    offlineFallback location unit now s
      = (Except.error { code := "WEATHER_API_ERROR" },
         { s with cache := fun k => if k = mkCacheKey location unit then none else s.cache k }) := by
  simp [offlineFallback, WeatherCache.get, h, hexp]

/-- A sample snapshot for concrete instantiations. -/
def sampleData : WeatherData :=
  { temperature := 21
    unit := "°C"
    location := "Tokyo"
    timestamp := "Updated at 10:00"
    status := WeatherStatus.online
    fetchedAt := 50 }

/-- The cache singleton's state right after construction: both maps empty. -/
def emptyState : WeatherCacheState :=
  { cache := fun _ => none, lastRefreshTimes := fun _ => none }

lemma underscore_data : ("_" : String).data = ['_'] := rfl

lemma mkCacheKey_data (location : String) (unit : TemperatureUnit) :
    (mkCacheKey location unit).data
      = location.data ++ ('_' :: (unitString unit).data) := by
  cases unit <;>
    simp [mkCacheKey, unitString, String.data_append, underscore_data, List.append_assoc]

/-- A state holding exactly one snapshot for `("Tokyo", celsius)`, expiring
at instant 100. -/
def tokyoState : WeatherCacheState :=
  { cache := fun k => if k = "Tokyo_celsius" then some ⟨sampleData, 100⟩ else none
    lastRefreshTimes := fun _ => none }

/-- A state whose recorded last refresh for `"Paris"` is the instant 0. -/
def zeroRefreshState : WeatherCacheState :=
  { cache := fun _ => none
    lastRefreshTimes := fun k => if k = "Paris" then some 0 else none }

/-- A state whose recorded last refresh for `"Paris"` is the instant 100. -/
def gateState : WeatherCacheState :=
  { cache := fun _ => none
    lastRefreshTimes := fun k => if k = "Paris" then some 100 else none }

/-! ### Claims -/

/-- C8: the cache key `` `${location}_${unit}` `` is injective — equal keys
force equal locations and equal units, for all locations (in particular the
valid 1–50 character ones) — and therefore storing a fahrenheit snapshot
for a location leaves the celsius entry of that same location untouched. -/
theorem claim_C8 :
    (∀ l1 u1 l2 u2, mkCacheKey l1 u1 = mkCacheKey l2 u2 → l1 = l2 ∧ u1 = u2)
    ∧ (∀ location data now s,
        (WeatherCache.set now (mkCacheKey location TemperatureUnit.fahrenheit) data s).cache
            (mkCacheKey location TemperatureUnit.celsius)
          = s.cache (mkCacheKey location TemperatureUnit.celsius)) := by
  have hinj : ∀ l1 u1 l2 u2, mkCacheKey l1 u1 = mkCacheKey l2 u2 → l1 = l2 ∧ u1 = u2 := by
    intro l1 u1 l2 u2 h
    have hd : l1.data ++ ('_' :: (unitString u1).data)
        = l2.data ++ ('_' :: (unitString u2).data) := by
      rw [← mkCacheKey_data, ← mkCacheKey_data, h]
    cases u1 <;> cases u2
    · exact ⟨String.ext (List.append_inj' hd rfl).1, rfl⟩
    · exfalso
      rw [show ('_' :: (unitString TemperatureUnit.celsius).data)
            = ("_celsiu").data ++ ['s'] from by decide,
          show ('_' :: (unitString TemperatureUnit.fahrenheit).data)
            = ("_fahrenhei").data ++ ['t'] from by decide,
          ← List.append_assoc, ← List.append_assoc] at hd
      have hlast := (List.append_inj' hd rfl).2
      simp at hlast
    · exfalso
      rw [show ('_' :: (unitString TemperatureUnit.fahrenheit).data)
            = ("_fahrenhei").data ++ ['t'] from by decide,
          show ('_' :: (unitString TemperatureUnit.celsius).data)
            = ("_celsiu").data ++ ['s'] from by decide,
          ← List.append_assoc, ← List.append_assoc] at hd
      have hlast := (List.append_inj' hd rfl).2
      simp at hlast
    · exact ⟨String.ext (List.append_inj' hd rfl).1, rfl⟩
  refine ⟨hinj, fun location data now s => ?_⟩
  have hne : mkCacheKey location TemperatureUnit.celsius
      ≠ mkCacheKey location TemperatureUnit.fahrenheit := by
    intro h
    exact absurd (hinj _ _ _ _ h).2 (by decide)
  simp [WeatherCache.set, hne]

/-- Witness for C8: equal keys at `("Paris", celsius)` resolve identically,
and storing under the fahrenheit key of `"Paris"` leaves its celsius slot
empty in the empty state. -/
theorem claim_C8_witness :
    (("Paris" : String) = "Paris" ∧ TemperatureUnit.celsius = TemperatureUnit.celsius)
    ∧ (WeatherCache.set 0 (mkCacheKey ("Paris") TemperatureUnit.fahrenheit)
          sampleData emptyState).cache (mkCacheKey ("Paris") TemperatureUnit.celsius)
      = none :=
  ⟨claim_C8.1 ("Paris") TemperatureUnit.celsius ("Paris") TemperatureUnit.celsius rfl,
   by rw [claim_C8.2]; rfl⟩

/-- C1 (amended): when a fetch attempt fails at any step, the operation
returns the previously stored snapshot for the exact `(location, unit)` key
with status forced to `offline` and all other fields unchanged — provided
that snapshot's TTL expiry instant has not passed; with no stored snapshot
it propagates the error with code `WEATHER_API_ERROR`, and with an
already-expired snapshot it likewise propagates the error (the fallback
lookup goes through the TTL-checking `get`, which deletes the expired
entry). -/
theorem claim_C1 (location : String) (unit : TemperatureUnit) (outcome : UpstreamOutcome)
    (now : Nat) (s : WeatherCacheState) (hfail : fetchStepFails outcome) :
    (∀ entry, s.cache (mkCacheKey location unit) = some entry → now ≤ entry.expiresAt →
        fetchWeatherFromAPI location unit outcome now s
          = (Except.ok { entry.data with status := WeatherStatus.offline }, s))
    ∧ (s.cache (mkCacheKey location unit) = none →
        fetchWeatherFromAPI location unit outcome now s
          = (Except.error { code := "WEATHER_API_ERROR" }, s))
    ∧ (∀ entry, s.cache (mkCacheKey location unit) = some entry → entry.expiresAt < now →
        (fetchWeatherFromAPI location unit outcome now s).1
          = Except.error { code := "WEATHER_API_ERROR" }) := by
  refine ⟨fun entry he hl => ?_, fun hn => ?_, fun entry he hx => ?_⟩ <;>
    rw [fetchWeatherFromAPI_fails_eq _ _ _ _ _ hfail]
  · exact offlineFallback_hit _ _ _ _ _ he hl
  · exact offlineFallback_none _ _ _ _ hn
  · rw [offlineFallback_expired _ _ _ _ _ he hx]

/-- Witness for C1: with a live stored snapshot a failed fetch returns it
offline; with an empty cache the error propagates. -/
theorem claim_C1_witness :
    fetchWeatherFromAPI ("Tokyo") TemperatureUnit.celsius UpstreamOutcome.failure 80 tokyoState
      = (Except.ok { sampleData with status := WeatherStatus.offline }, tokyoState)
    ∧ fetchWeatherFromAPI ("Tokyo") TemperatureUnit.celsius UpstreamOutcome.failure 80 emptyState
      = (Except.error { code := "WEATHER_API_ERROR" }, emptyState) :=
  ⟨(claim_C1 ("Tokyo") TemperatureUnit.celsius UpstreamOutcome.failure 80 tokyoState
      (Or.inl rfl)).1 ⟨sampleData, 100⟩ rfl (by decide),
   (claim_C1 ("Tokyo") TemperatureUnit.celsius UpstreamOutcome.failure 80 emptyState
      (Or.inl rfl)).2.1 rfl⟩

/-- Counterexample to C1 as stated: a stored snapshot whose TTL expiry
instant (100) has already passed is *not* returned offline by a failed
fetch at instant 200 — the code propagates `WEATHER_API_ERROR` instead. -/
theorem claim_C1_counterexample :
    tokyoState.cache (mkCacheKey ("Tokyo") TemperatureUnit.celsius) = some ⟨sampleData, 100⟩
    ∧ (100 : Nat) < 200
    ∧ (fetchWeatherFromAPI ("Tokyo") TemperatureUnit.celsius UpstreamOutcome.failure 200
        tokyoState).1 = Except.error { code := "WEATHER_API_ERROR" }
    ∧ (fetchWeatherFromAPI ("Tokyo") TemperatureUnit.celsius UpstreamOutcome.failure 200
        tokyoState).1 ≠ Except.ok { sampleData with status := WeatherStatus.offline } :=
  ⟨rfl, by decide, rfl, fun h => Except.noConfusion h⟩

/-- C9: a failed fetch attempt never writes to the cache and never updates
the per-location last-refresh time; the only possible state change is the
lazy deletion, at this attempt's own key, of an entry that was already
expired. -/
theorem claim_C9 (location : String) (unit : TemperatureUnit) (outcome : UpstreamOutcome)
    (now : Nat) (s : WeatherCacheState) (hfail : fetchStepFails outcome) :
    ((fetchWeatherFromAPI location unit outcome now s).2.lastRefreshTimes
      = s.lastRefreshTimes)
    ∧ (∀ k, k ≠ mkCacheKey location unit →
        (fetchWeatherFromAPI location unit outcome now s).2.cache k = s.cache k)
    ∧ ((fetchWeatherFromAPI location unit outcome now s).2.cache (mkCacheKey location unit)
          = s.cache (mkCacheKey location unit)
       ∨ ((fetchWeatherFromAPI location unit outcome now s).2.cache
            (mkCacheKey location unit) = none
          ∧ ∃ entry, s.cache (mkCacheKey location unit) = some entry
              ∧ entry.expiresAt < now)) := by
  rw [fetchWeatherFromAPI_fails_eq _ _ _ _ _ hfail]
  rcases hck : s.cache (mkCacheKey location unit) with _ | entry
  · rw [offlineFallback_none _ _ _ _ hck]
    exact ⟨rfl, fun k _ => rfl, Or.inl hck⟩
  · by_cases hx : entry.expiresAt < now
    · rw [offlineFallback_expired _ _ _ _ _ hck hx]
      refine ⟨rfl, fun k hk => ?_, Or.inr ⟨?_, entry, rfl, hx⟩⟩
      · simp [hk]
      · simp
    · rw [offlineFallback_hit _ _ _ _ _ hck (not_lt.mp hx)]
      exact ⟨rfl, fun k _ => rfl, Or.inl hck⟩

/-- Witness for C9: after a failed fetch at instant 200 against the state
holding only the (expired) Tokyo entry, the last-refresh map is unchanged
and an unrelated key is untouched. -/
theorem claim_C9_witness :
    (fetchWeatherFromAPI ("Tokyo") TemperatureUnit.celsius UpstreamOutcome.failure 200
        tokyoState).2.lastRefreshTimes = tokyoState.lastRefreshTimes
    ∧ (fetchWeatherFromAPI ("Tokyo") TemperatureUnit.celsius UpstreamOutcome.failure 200
        tokyoState).2.cache ("Berlin_celsius") = tokyoState.cache ("Berlin_celsius") :=
  have h := claim_C9 ("Tokyo") TemperatureUnit.celsius UpstreamOutcome.failure 200
    tokyoState (Or.inl rfl)
  ⟨h.1, h.2.1 ("Berlin_celsius") (by decide)⟩

/-- C5: an upstream Celsius value outside [-90, 60] makes the fetch behave
exactly as an upstream failure — the converted value is never stored or
returned, nothing is written to the cache, and with no stored snapshot for
the key the `WEATHER_API_ERROR` propagates — while any value inside the
closed interval (endpoints included) passes the guard and yields a fresh
snapshot. -/
theorem claim_C5 (location : String) (unit : TemperatureUnit) (temp_c : ℚ) (name : String)
    (now : Nat) (s : WeatherCacheState) :
    ((temp_c < -90 ∨ temp_c > 60) →
        fetchWeatherFromAPI location unit (UpstreamOutcome.success temp_c name) now s
          = fetchWeatherFromAPI location unit UpstreamOutcome.failure now s
        ∧ (s.cache (mkCacheKey location unit) = none →
            fetchWeatherFromAPI location unit (UpstreamOutcome.success temp_c name) now s
              = (Except.error { code := "WEATHER_API_ERROR" }, s)))
    ∧ (-90 ≤ temp_c → temp_c ≤ 60 →
        (fetchWeatherFromAPI location unit (UpstreamOutcome.success temp_c name) now s).1
          = Except.ok (freshSnapshot unit temp_c name now)) := by
  constructor
  · intro hg
    have hfails : fetchStepFails (UpstreamOutcome.success temp_c name) :=
      Or.inr ⟨temp_c, name, rfl, hg⟩
    constructor
    · rw [fetchWeatherFromAPI_fails_eq _ _ _ _ _ hfails,
        fetchWeatherFromAPI_fails_eq _ _ _ _ _ (Or.inl rfl)]
    · intro hn
      rw [fetchWeatherFromAPI_fails_eq _ _ _ _ _ hfails, offlineFallback_none _ _ _ _ hn]
  · intro h1 h2
    rw [fetchWeatherFromAPI_success_eq _ _ _ _ _ _ (not_or.mpr ⟨not_lt.mpr h1, not_lt.mpr h2⟩)]

/-- Witness for C5: Celsius 65 is rejected with `WEATHER_API_ERROR` before
anything reaches the empty cache, while the endpoints 60 and -90 pass. -/
theorem claim_C5_witness :
    fetchWeatherFromAPI ("Quito") TemperatureUnit.celsius
        (UpstreamOutcome.success 65 ("Quito")) 0 emptyState
      = (Except.error { code := "WEATHER_API_ERROR" }, emptyState)
    ∧ (fetchWeatherFromAPI ("Quito") TemperatureUnit.celsius
        (UpstreamOutcome.success 60 ("Quito")) 0 emptyState).1
      = Except.ok (freshSnapshot TemperatureUnit.celsius 60 ("Quito") 0)
    ∧ (fetchWeatherFromAPI ("Quito") TemperatureUnit.celsius
        (UpstreamOutcome.success (-90) ("Quito")) 0 emptyState).1
      = Except.ok (freshSnapshot TemperatureUnit.celsius (-90) ("Quito") 0) :=
  ⟨((claim_C5 ("Quito") TemperatureUnit.celsius 65 ("Quito") 0 emptyState).1
      (by decide)).2 rfl,
   (claim_C5 ("Quito") TemperatureUnit.celsius 60 ("Quito") 0 emptyState).2
      (by decide) (by decide),
   (claim_C5 ("Quito") TemperatureUnit.celsius (-90) ("Quito") 0 emptyState).2
      (by decide) (by decide)⟩

/-- C6: with unit fahrenheit the stored and returned temperature is
`C * 9/5 + 32` rounded to one decimal place; Celsius 20 gives exactly 68
and Celsius 0 exactly 32; and the rounded result of an identical Celsius
input is identical regardless of the cache state it is computed against. -/
theorem claim_C6 (location name : String) (temp_c : ℚ) (now : Nat)
    (s s2 : WeatherCacheState) (h1 : -90 ≤ temp_c) (h2 : temp_c ≤ 60) :
    (fetchWeatherFromAPI location TemperatureUnit.fahrenheit
        (UpstreamOutcome.success temp_c name) now s).1
      = Except.ok (freshSnapshot TemperatureUnit.fahrenheit temp_c name now)
    ∧ (freshSnapshot TemperatureUnit.fahrenheit temp_c name now).temperature
      = toFixed1 (celsiusToFahrenheit temp_c)
    ∧ toFixed1 (celsiusToFahrenheit 20) = 68
    ∧ toFixed1 (celsiusToFahrenheit 0) = 32
    ∧ (fetchWeatherFromAPI location TemperatureUnit.fahrenheit
          (UpstreamOutcome.success temp_c name) now s).1
      = (fetchWeatherFromAPI location TemperatureUnit.fahrenheit
          (UpstreamOutcome.success temp_c name) now s2).1 := by
  have hg : ¬ (temp_c < -90 ∨ temp_c > 60) := not_or.mpr ⟨not_lt.mpr h1, not_lt.mpr h2⟩
  refine ⟨by rw [fetchWeatherFromAPI_success_eq _ _ _ _ _ _ hg], by simp [freshSnapshot],
    by norm_num [toFixed1, celsiusToFahrenheit], by norm_num [toFixed1, celsiusToFahrenheit],
    by rw [fetchWeatherFromAPI_success_eq _ _ _ _ _ _ hg,
      fetchWeatherFromAPI_success_eq _ _ _ _ _ _ hg]⟩

/-- Witness for C6 at Celsius 20: the fetched fahrenheit snapshot carries
exactly 68.0. -/
theorem claim_C6_witness :
    (fetchWeatherFromAPI ("Paris") TemperatureUnit.fahrenheit
        (UpstreamOutcome.success 20 ("Paris")) 1000 emptyState).1
      = Except.ok (freshSnapshot TemperatureUnit.fahrenheit 20 ("Paris") 1000)
    ∧ (freshSnapshot TemperatureUnit.fahrenheit 20 ("Paris") 1000).temperature = 68 :=
  have h := claim_C6 ("Paris") ("Paris") 20 1000 emptyState emptyState
    (by decide) (by decide)
  ⟨h.1, by rw [h.2.1]; exact h.2.2.1⟩

lemma offlineFallback_fst_ignores_lastRefresh (location : String) (unit : TemperatureUnit)
    (now : Nat) (cache : String → Option CacheEntry) (f g : String → Option Nat) :
    (offlineFallback location unit now ⟨cache, f⟩).1
      = (offlineFallback location unit now ⟨cache, g⟩).1 := by
  rcases hck : cache (mkCacheKey location unit) with _ | entry
  · rw [offlineFallback_none _ _ _ _ hck, offlineFallback_none _ _ _ _ hck]
  · by_cases hx : entry.expiresAt < now
    · rw [offlineFallback_expired _ _ _ _ _ hck hx, offlineFallback_expired _ _ _ _ _ hck hx]
    · rw [offlineFallback_hit _ _ _ _ _ hck (not_lt.mp hx),
        offlineFallback_hit _ _ _ _ _ hck (not_lt.mp hx)]

/-- C10: the service `refreshWeather` is the shared fetch-and-store
function itself; the 30-second gate lives only in the HTTP controller,
which answers 429 without fetching when the gate denies and otherwise
just maps the service outcome; and the service result ignores the
recorded last-refresh times entirely, so a direct caller bypasses the
gate. -/
theorem claim_C10 :
    (∀ location unit outcome now s,
        refreshWeather location unit outcome now s
          = fetchWeatherFromAPI location unit outcome now s)
    ∧ (∀ location unit outcome now s, validLocation location →
        checkRefreshEligibility location now s = false →
        controllerRefreshWeather location unit outcome now s
          = (ControllerResponse.rateLimitError, s))
    ∧ (∀ location unit outcome now s, validLocation location →
        checkRefreshEligibility location now s = true →
        ∀ d s1, refreshWeather location unit outcome now s = (Except.ok d, s1) →
          controllerRefreshWeather location unit outcome now s
            = (ControllerResponse.ok d, s1))
    ∧ (∀ location unit outcome now s, validLocation location →
        checkRefreshEligibility location now s = true →
        ∀ e s1, refreshWeather location unit outcome now s = (Except.error e, s1) →
          controllerRefreshWeather location unit outcome now s
            = (ControllerResponse.weatherApiError, s1))
    ∧ (∀ location unit outcome now cache f g,
        (refreshWeather location unit outcome now ⟨cache, f⟩).1
          = (refreshWeather location unit outcome now ⟨cache, g⟩).1) := by
  refine ⟨fun _ _ _ _ _ => rfl, ?_, ?_, ?_, ?_⟩
  · intro location unit outcome now s hval hgate
    simp [controllerRefreshWeather, hval, hgate]
  · intro location unit outcome now s hval hgate d s1 hres
    simp [controllerRefreshWeather, hval, hgate, hres]
  · intro location unit outcome now s hval hgate e s1 hres
    simp [controllerRefreshWeather, hval, hgate, hres]
  · intro location unit outcome now cache f g
    rcases outcome with _ | ⟨temp_c, name⟩
    · exact offlineFallback_fst_ignores_lastRefresh location unit now cache f g
    · by_cases hg : temp_c < -90 ∨ temp_c > 60
      · rw [show refreshWeather location unit (UpstreamOutcome.success temp_c name) now
              ⟨cache, f⟩ = offlineFallback location unit now ⟨cache, f⟩ from
            fetchWeatherFromAPI_fails_eq _ _ _ _ _ (Or.inr ⟨temp_c, name, rfl, hg⟩),
          show refreshWeather location unit (UpstreamOutcome.success temp_c name) now
              ⟨cache, g⟩ = offlineFallback location unit now ⟨cache, g⟩ from
            fetchWeatherFromAPI_fails_eq _ _ _ _ _ (Or.inr ⟨temp_c, name, rfl, hg⟩)]
        exact offlineFallback_fst_ignores_lastRefresh location unit now cache f g
      · rw [show refreshWeather location unit (UpstreamOutcome.success temp_c name) now
              ⟨cache, f⟩ = _ from fetchWeatherFromAPI_success_eq _ _ _ _ _ _ hg,
          show refreshWeather location unit (UpstreamOutcome.success temp_c name) now
              ⟨cache, g⟩ = _ from fetchWeatherFromAPI_success_eq _ _ _ _ _ _ hg]

/-- Witness for C10: with a refresh recorded 10 seconds ago the controller
answers 429 and leaves the state alone, yet the service `refreshWeather`
called directly on the same state still reaches the fallback/fetch logic
(here: propagates the upstream error instead of being rate limited). -/
theorem claim_C10_witness :
    controllerRefreshWeather ("Paris") TemperatureUnit.celsius UpstreamOutcome.failure 10100
        gateState = (ControllerResponse.rateLimitError, gateState)
    ∧ refreshWeather ("Paris") TemperatureUnit.celsius UpstreamOutcome.failure 10100 gateState
      = fetchWeatherFromAPI ("Paris") TemperatureUnit.celsius UpstreamOutcome.failure 10100
        gateState :=
  ⟨claim_C10.2.1 ("Paris") TemperatureUnit.celsius UpstreamOutcome.failure 10100 gateState
      (by decide) rfl,
   claim_C10.1 ("Paris") TemperatureUnit.celsius UpstreamOutcome.failure 10100 gateState⟩

/-- C4 (amended): the manual-refresh gate allows exactly when no
last-refresh time is recorded for the location, or the recorded time is
the instant 0 (which the lookup's `|| null` treats as absent), or at least
30000 ms have passed (boundary inclusive); the gate is keyed by location
alone — a recorded celsius refresh blocks a fahrenheit refresh of the same
location inside the window — and on denial the controller answers 429
without performing any fetch. -/
theorem claim_C4 (location : String) (unit : TemperatureUnit) (outcome : UpstreamOutcome)
    (now : Nat) (s : WeatherCacheState) :
    (checkRefreshEligibility location now s = true ↔
      (s.lastRefreshTimes location = none ∨ s.lastRefreshTimes location = some 0
        ∨ ∃ t, s.lastRefreshTimes location = some t ∧ (now : ℤ) - (t : ℤ) ≥ 30000))
    ∧ (validLocation location → checkRefreshEligibility location now s = false →
        controllerRefreshWeather location unit outcome now s
          = (ControllerResponse.rateLimitError, s))
    ∧ (∀ (temp_c : ℚ) (name : String) (t0 : Nat),
        validLocation location → ¬ (temp_c < -90 ∨ temp_c > 60) →
        0 < t0 → (now : ℤ) - (t0 : ℤ) < 30000 →
        controllerRefreshWeather location TemperatureUnit.fahrenheit outcome now
            (fetchWeatherFromAPI location TemperatureUnit.celsius
              (UpstreamOutcome.success temp_c name) t0 s).2
          = (ControllerResponse.rateLimitError,
             (fetchWeatherFromAPI location TemperatureUnit.celsius
               (UpstreamOutcome.success temp_c name) t0 s).2)) := by
  refine ⟨?_, ?_, ?_⟩
  · rcases hl : s.lastRefreshTimes location with _ | t
    · simp [checkRefreshEligibility, WeatherCache.getLastRefreshTime, hl]
    · by_cases ht : t = 0
      · subst ht
        simp [checkRefreshEligibility, WeatherCache.getLastRefreshTime, hl]
      · simp [checkRefreshEligibility, WeatherCache.getLastRefreshTime, hl, ht]
  · intro hval hgate
    simp [controllerRefreshWeather, hval, hgate]
  · intro temp_c name t0 hval hg ht0 hlt
    rw [fetchWeatherFromAPI_success_eq _ _ _ _ _ _ hg]
    have hgate : checkRefreshEligibility location now
        (WeatherCache.setLastRefreshTime location t0
          (WeatherCache.set t0 (mkCacheKey location TemperatureUnit.celsius)
            (freshSnapshot TemperatureUnit.celsius temp_c name t0) s)) = false := by
      simp [checkRefreshEligibility, WeatherCache.getLastRefreshTime,
        WeatherCache.setLastRefreshTime, ht0.ne', not_le.mpr hlt]
    simp [controllerRefreshWeather, hval, hgate]

/-- Witness for C4 (amended): a celsius refresh for `"Paris"` recorded at
instant 5000 makes a fahrenheit refresh at instant 10000 answer 429. -/
theorem claim_C4_witness :
    controllerRefreshWeather ("Paris") TemperatureUnit.fahrenheit UpstreamOutcome.failure
        10000
        (fetchWeatherFromAPI ("Paris") TemperatureUnit.celsius
          (UpstreamOutcome.success 20 ("Paris")) 5000 emptyState).2
      = (ControllerResponse.rateLimitError,
         (fetchWeatherFromAPI ("Paris") TemperatureUnit.celsius
           (UpstreamOutcome.success 20 ("Paris")) 5000 emptyState).2) :=
  (claim_C4 ("Paris") TemperatureUnit.fahrenheit UpstreamOutcome.failure 10000
      emptyState).2.2 20 ("Paris") 5000 (by decide) (by decide) (by decide) (by decide)

/-- Counterexample to C4 as stated: a last-refresh time *is* recorded for
`"Paris"` (the instant 0) and only 10 seconds have passed, yet the gate
allows the refresh, because `getLastRefreshTime` returns `value || null`
and the falsy 0 is reported as absent. -/
theorem claim_C4_counterexample :
    zeroRefreshState.lastRefreshTimes ("Paris") = some 0
    ∧ ((10000 : ℤ) - ((0 : Nat) : ℤ) < 30000)
    ∧ checkRefreshEligibility ("Paris") 10000 zeroRefreshState = true :=
  ⟨rfl, by decide, rfl⟩

/-- C2: an entry stored by `set` at time `t` gets `expiresAt = t + 900000`
(15 minutes), overwriting unconditionally; `get` at time `now` returns the
stored snapshot without touching the store when `now ≤ expiresAt`, and when
`now > expiresAt` it returns absent and deletes the entry. -/
theorem claim_C2 (key : String) (data : WeatherData) (t now : Nat) (s : WeatherCacheState) :
    (WeatherCache.set t key data s).cache key = some ⟨data, t + 900000⟩
    ∧ (now ≤ t + 900000 →
        WeatherCache.get now key (WeatherCache.set t key data s)
          = (some data, WeatherCache.set t key data s))
    ∧ (now > t + 900000 →
        WeatherCache.get now key (WeatherCache.set t key data s)
          = (none, { WeatherCache.set t key data s with
              cache := fun k => if k = key then none
                else (WeatherCache.set t key data s).cache k })) := by
  refine ⟨by simp [WeatherCache.set], fun h => ?_, fun h => ?_⟩
  · simp [WeatherCache.get, WeatherCache.set, not_lt.mpr h]
  · simp [WeatherCache.get, WeatherCache.set, h]

/-- Witness for C2 at a concrete key, snapshot and pair of instants. -/
theorem claim_C2_witness :
    WeatherCache.get 100 ("Tokyo_celsius")
        (WeatherCache.set 0 ("Tokyo_celsius") sampleData emptyState)
      = (some sampleData, WeatherCache.set 0 ("Tokyo_celsius") sampleData emptyState) :=
  (claim_C2 ("Tokyo_celsius") sampleData 0 100 emptyState).2.1 (by decide)

/-- C3: on a cache hit, `getCurrentWeather` returns a copy of the stored
snapshot whose status is `outdated` exactly when `now - fetchedAt` exceeds
3600000 ms and `online` otherwise, with every other field unchanged, and it
leaves the state untouched. -/
theorem claim_C3 (location : String) (unit : TemperatureUnit) (outcome : UpstreamOutcome)
    (now : Nat) (s : WeatherCacheState) (entry : CacheEntry)
    (hhit : s.cache (mkCacheKey location unit) = some entry)
    (hlive : now ≤ entry.expiresAt) :
    getCurrentWeather location unit outcome now s
      = (Except.ok { entry.data with
          status := if (now : ℤ) - (entry.data.fetchedAt : ℤ) > 3600000
            then WeatherStatus.outdated else WeatherStatus.online }, s) := by
  simp [getCurrentWeather, WeatherCache.get, hhit, not_lt.mpr hlive]

/-- Witness for C3: a hit on an old-but-retained entry is labeled
`outdated`; the same lookup two minutes after the fetch is `online`. -/
theorem claim_C3_witness :
    getCurrentWeather ("Tokyo") TemperatureUnit.celsius UpstreamOutcome.failure 4000000
        { cache := fun k => if k = "Tokyo_celsius" then some ⟨sampleData, 4000050⟩ else none
          lastRefreshTimes := fun _ => none }
      = (Except.ok { sampleData with status := WeatherStatus.outdated },
         { cache := fun k => if k = "Tokyo_celsius" then some ⟨sampleData, 4000050⟩ else none
           lastRefreshTimes := fun _ => none }) := by
  have h := claim_C3 ("Tokyo") TemperatureUnit.celsius UpstreamOutcome.failure 4000000
    { cache := fun k => if k = "Tokyo_celsius" then some ⟨sampleData, 4000050⟩ else none
      lastRefreshTimes := fun _ => none } ⟨sampleData, 4000050⟩ (by rfl) (by decide)
  simpa using h

/-- C7: one sweep execution removes exactly the entries whose `expiresAt`
lies strictly before `now` — even entries never read via `get` — retains
every entry with `expiresAt ≥ now`, and leaves the last-refresh-times map
untouched. -/
theorem claim_C7 (now : Nat) (s : WeatherCacheState) :
    (∀ k e, s.cache k = some e → e.expiresAt < now →
        (WeatherCache.cleanupSweep now s).cache k = none)
    ∧ (∀ k e, s.cache k = some e → now ≤ e.expiresAt →
        (WeatherCache.cleanupSweep now s).cache k = some e)
    ∧ (WeatherCache.cleanupSweep now s).lastRefreshTimes = s.lastRefreshTimes := by
  refine ⟨fun k e hk he => ?_, fun k e hk he => ?_, rfl⟩
  · simp [WeatherCache.cleanupSweep, hk, he]
  · simp [WeatherCache.cleanupSweep, hk, not_lt.mpr he]

/-- Witness for C7: a never-read expired entry disappears after the sweep
while an unexpired one is kept. -/
theorem claim_C7_witness :
    (WeatherCache.cleanupSweep 200
        { cache := fun k => if k = "Tokyo_celsius" then some ⟨sampleData, 100⟩ else none
          lastRefreshTimes := fun _ => none }).cache ("Tokyo_celsius") = none :=
  (claim_C7 200
      { cache := fun k => if k = "Tokyo_celsius" then some ⟨sampleData, 100⟩ else none
        lastRefreshTimes := fun _ => none }).1
    ("Tokyo_celsius") ⟨sampleData, 100⟩ (by rfl) (by decide)
